import Mathlib

/-!
# Verification of `pet_finder.js`

A shallow embedding of the Pet Finder command-line program: the `Pet` record,
the `AnimalShelter` store with its `add`, `search` and `adopt` operations, the
`displayShelterAnimals` listing, the input handlers of the interactive loop,
and the bootstrapper's seed data.  JavaScript `for (i = 0; i < count; i++)`
loops over `this.pets` are embedded as operations on `pets.take count`
(`filter` for the read-only scans, `map`/`any` for the mutating adoption
scan); string truthiness is embedded as comparison with the empty string;
an `undefined` callback result is embedded as `Option.none`, and a property
access on `undefined` (a thrown `TypeError`) as `Except.error`.
-/

/-- The `Pet` class: `name`, `type`, `breed` and the `is_available` flag. -/
structure Pet where
  name : String
  type : String
  breed : String
  is_available : Bool
  deriving DecidableEq, Repr

/-- The `AnimalShelter` class: an array of `Pet` references and a `count`
field, both set by the constructor `AnimalShelter(pets, count)`. -/
structure AnimalShelter where
  pets : List Pet
  count : Nat
  deriving DecidableEq, Repr

/-- The elements visited by the shelter's loops, which all iterate
`for (let i = 0; i < this.count; i++)` over `this.pets`. -/
def AnimalShelter.scanned (s : AnimalShelter) : List Pet :=
  s.pets.take s.count

/-- `add(pet)`: `this.pets.push(pet)`.  Note the source never updates
`this.count`. -/
def AnimalShelter.add (s : AnimalShelter) (p : Pet) : AnimalShelter :=
  ⟨s.pets ++ [p], s.count⟩

/-- `search(type, breed)`: four branches on the truthiness of `type` and
`breed` (a JavaScript string is truthy exactly when non-empty); each branch
collects the pets among the first `count` entries that pass that branch's
conjunctive test, in array order. -/
def AnimalShelter.search (s : AnimalShelter) (type breed : String) : List Pet :=
  if type ≠ "" ∧ breed ≠ "" then
    s.scanned.filter (fun p => p.type == type && p.breed == breed && p.is_available)
  else if type ≠ "" ∧ breed = "" then
    s.scanned.filter (fun p => p.type == type && p.is_available)
  else if type = "" ∧ breed ≠ "" then
    s.scanned.filter (fun p => p.breed == breed && p.is_available)
  else
    s.scanned.filter (fun p => p.is_available)

/-- JavaScript's `toLowerCase()`, embedded as a character-wise lowercase map
(the two functions agree on the ASCII names this program handles). -/
def lowerString (s : String) : String :=
  ⟨s.data.map Char.toLower⟩

/-- The per-pet test of the `adopt` loop:
`name && pet.name.toLowerCase() === name.toLowerCase() && pet.is_available`. -/
def adoptCond (name : String) (p : Pet) : Bool :=
  !(name == "") && (lowerString p.name == lowerString name) && p.is_available

/-- The per-pet effect of one iteration of the `adopt` loop: when the test
holds the pet's `is_available` is set to `false`, otherwise the pet is
untouched. -/
def adoptMark (name : String) (p : Pet) : Pet :=
  if adoptCond name p then { p with is_available := false } else p

/-- `adopt(name)`: the loop over the first `count` pets flips every pet
passing `adoptCond` and sets `result = true` whenever it flips one; entries
beyond `count` are never visited.  Returns the flag together with the updated
shelter state. -/
def AnimalShelter.adopt (s : AnimalShelter) (name : String) : Bool × AnimalShelter :=
  (s.scanned.any (adoptCond name),
   ⟨s.scanned.map (adoptMark name) ++ s.pets.drop s.count, s.count⟩)

/-- The listing line `console.log(`name, type, breed`)` printed for a pet. -/
def petLine (p : Pet) : String :=
  p.name ++ ", " ++ p.type ++ ", " ++ p.breed

/-- The pets whose lines the option-1 loop prints: the available pets among
the first `count` entries. -/
def displayedPets (s : AnimalShelter) : List Pet :=
  s.scanned.filter (fun p => p.is_available)

/-- `displayShelterAnimals()`: prints the header, then either the
`"No pets are currently available."` message when `count === 0`, or one line
per available pet among the first `count` entries.  Embedded as the list of
lines written to the console. -/
def displayShelterAnimals (s : AnimalShelter) : List String :=
  "\nPets available for adoption:" ::
    (if s.count = 0 then ["No pets are currently available."]
     else (displayedPets s).map petLine)

/-- The action the main-menu callback in `ask()` takes next. -/
inductive MenuAction where
  | showPets
  | promptType
  | promptName
  | exitProgram
  | redisplayMenu
  deriving DecidableEq, Repr

/-- The main-menu callback in `ask()`: dispatch on `result.input` after the
`if (result)` guard; an `undefined` result re-displays the menu. -/
def askSelection (result : Option String) : MenuAction :=
  match result with
  | none => MenuAction.redisplayMenu
  | some selection =>
    if selection = "1" then MenuAction.showPets
    else if selection = "2" then MenuAction.promptType
    else if selection = "3" then MenuAction.promptName
    else if selection = "4" then MenuAction.exitProgram
    else MenuAction.redisplayMenu

/-- A runtime failure of an input callback. -/
inductive UIError where
  /-- A property access on an `undefined` callback result: in JavaScript a
  thrown `TypeError` that propagates out of the callback. -/
  | undefinedResultAccess
  deriving DecidableEq, Repr

/-- The callback in `askType()`: it reads `result.type` with no
`if (result)` guard, so an absent result throws; otherwise a value other
than `"cat"` or `"dog"` is replaced by the empty type filter. -/
def askTypeStep (result : Option String) : Except UIError String :=
  match result with
  | none => Except.error UIError.undefinedResultAccess
  | some type =>
    if type = "cat" ∨ type = "dog" then Except.ok type
    else Except.ok ""

/-- The lines printed by the `askBreed` callback once `result.breed` has been
read: the matching pets' lines when the search result is non-empty, otherwise
one of four no-result messages chosen by filter truthiness (the missing
closing parentheses are the source's own). -/
def askBreedOutput (s : AnimalShelter) (type breed : String) : List String :=
  let pets := s.search type breed
  if pets.length > 0 then
    (pets.filter (fun p => p.is_available)).map petLine
  else if type ≠ "" ∧ breed ≠ "" then
    ["No pets are available for selected type (" ++ type ++ " and breed " ++ breed ++ "."]
  else if type ≠ "" ∧ breed = "" then
    ["No pets are available for selected type (" ++ type ++ "."]
  else if type = "" ∧ breed ≠ "" then
    ["No pets are available for selected breed (" ++ breed ++ "."]
  else
    ["No pets are available."]

/-- The callback in `askBreed(type)`: it reads `result.breed` with no
`if (result)` guard, so an absent result throws; otherwise it prints the
search output and returns to the menu. -/
def askBreedStep (s : AnimalShelter) (type : String) (result : Option String) :
    Except UIError (List String) :=
  match result with
  | none => Except.error UIError.undefinedResultAccess
  | some breed => Except.ok (askBreedOutput s type breed)

/-- The callback in `askName()`: the `if (result)` guard makes an absent
result fall through with no action at all (no re-prompt, no crash); a present
but empty name prints a validation message without calling `adopt`; otherwise
`adopt(name)` runs and the outcome message is printed.  Returns `none` for
the silent fall-through, else the printed lines and the new shelter state. -/
def askNameStep (s : AnimalShelter) (result : Option String) :
    Except UIError (Option (List String × AnimalShelter)) :=
  match result with
  | none => Except.ok none
  | some name =>
    if name = "" then
      Except.ok (some (["You must specify a valid name in order to adopt a pet. Please try again."], s))
    else
      let r := s.adopt name
      if r.fst then
        Except.ok (some (["Congratulations! You adopted " ++ name ++ "."], r.snd))
      else
        Except.ok (some (["Something went wrong. Please check that the name is spelled correctly.",
                          "Pet trying to adopt is " ++ name ++ "."], r.snd))

/-- Seed pet `Luna` from `ProjectDriver.run`. -/
def lunaPet : Pet := ⟨"Luna", "dog", "Golden Retriever", true⟩

/-- Seed pet `Teddy` from `ProjectDriver.run`. -/
def teddyPet : Pet := ⟨"Teddy", "dog", "Labrador", true⟩

/-- Seed pet `Charlie` from `ProjectDriver.run`. -/
def charliePet : Pet := ⟨"Charlie", "dog", "Golden Retriever", true⟩

/-- Seed pet `Aster` from `ProjectDriver.run`. -/
def asterPet : Pet := ⟨"Aster", "dog", "Husky", true⟩

/-- Seed pet `Goldie` from `ProjectDriver.run`. -/
def goldiePet : Pet := ⟨"Goldie", "cat", "Shorthair", true⟩

/-- Seed pet `Lisa` from `ProjectDriver.run`. -/
def lisaPet : Pet := ⟨"Lisa", "cat", "Longhair", true⟩

/-- Seed pet `Timmy` from `ProjectDriver.run`. -/
def timmyPet : Pet := ⟨"Timmy", "cat", "Siamese", true⟩

/-- Seed pet `Oliver` from `ProjectDriver.run`. -/
def oliverPet : Pet := ⟨"Oliver", "cat", "Shorthair", true⟩

/-- The eight seed pets pushed by `ProjectDriver.run`, in push order. -/
def seedPets : List Pet :=
  [lunaPet, teddyPet, charliePet, asterPet, goldiePet, lisaPet, timmyPet, oliverPet]

/-- The shelter built by `ProjectDriver.run`:
`new AnimalShelter(pets, pets.length)`. -/
def seedShelter : AnimalShelter :=
  ⟨seedPets, seedPets.length⟩

/-- The filter test the specification describes: an empty filter is a
wildcard, otherwise exact case-sensitive equality; both filters must pass. -/
def matchesFilters (type breed : String) (p : Pet) : Bool :=
  (type == "" || p.type == type) && (breed == "" || p.breed == breed)

/-- Claim C8: on the bootstrapper's default seed, before any adoption,
`search("dog", "")` returns exactly the pets Luna, Teddy, Charlie and Aster,
in that order. -/
theorem seed_search_dog_order :
    seedShelter.search "dog" "" = [lunaPet, teddyPet, charliePet, asterPet] := by decide

/-- Claim C1, counterexample: the pet Luna, appended via `add` to an empty
shelter, has `is_available = true` yet appears neither among the displayed
pets nor as a line of the option-1 output, because `add` never updates
`count` and the display loop stops at `count`. -/
theorem add_outside_listing_cex :
    lunaPet.is_available = true ∧
    ((AnimalShelter.mk [] 0).add lunaPet).pets = [lunaPet] ∧
    lunaPet ∉ displayedPets ((AnimalShelter.mk [] 0).add lunaPet) ∧
    petLine lunaPet ∉ displayShelterAnimals ((AnimalShelter.mk [] 0).add lunaPet) := by
  decide

/-- Claim C1, amended: for every pet among the first `count` entries of the
shelter's array, the pet appears in the available-pets listing iff its
`is_available` flag is true; a pet appended via `add` after construction lies
beyond `count` and never changes the listing. -/
theorem listing_iff_available (s : AnimalShelter) (p q : Pet)
    (hmem : p ∈ s.scanned) (hlen : s.count ≤ s.pets.length) :
    (p ∈ displayedPets s ↔ p.is_available = true) ∧
    displayedPets (s.add q) = displayedPets s := by
  constructor
  · simp [displayedPets, List.mem_filter, hmem]
  · simp [displayedPets, AnimalShelter.scanned, AnimalShelter.add,
      List.take_append_of_le_length hlen]

/-- Witness for `listing_iff_available` at the seed shelter and Luna. -/
theorem listing_iff_available_witness :
    lunaPet ∈ displayedPets seedShelter := by
  have h := listing_iff_available seedShelter lunaPet goldiePet (by decide) (by decide)
  exact h.1.mpr (by decide)

/-- Claim C5, counterexample: on a roster holding exactly one pet, already
adopted, option 1 prints only the header — the
`"No pets are currently available."` message does not appear, contrary to the
claim. -/
theorem display_all_adopted_cex :
    (∀ p ∈ (AnimalShelter.mk [⟨"Luna", "dog", "Golden Retriever", false⟩] 1).scanned,
        p.is_available = false) ∧
    displayShelterAnimals (AnimalShelter.mk [⟨"Luna", "dog", "Golden Retriever", false⟩] 1) =
      ["\nPets available for adoption:"] ∧
    "No pets are currently available." ∉
      displayShelterAnimals (AnimalShelter.mk [⟨"Luna", "dog", "Golden Retriever", false⟩] 1) := by
  decide

/-- Claim C5, amended: when no scanned pet is available, option 1 prints the
`"No pets are currently available."` message only in the `count = 0` case;
with `count ≠ 0` and every pet adopted, it prints no pet lines and no message
(only the header). -/
theorem display_no_available (s : AnimalShelter)
    (h : ∀ p ∈ s.scanned, p.is_available = false) :
    displayShelterAnimals s =
      "\nPets available for adoption:" ::
        (if s.count = 0 then ["No pets are currently available."] else []) := by
  have hnil : s.scanned.filter (fun p => p.is_available) = [] :=
    List.filter_eq_nil_iff.mpr (by intro a ha; simp [h a ha])
  by_cases hc : s.count = 0
  · simp [displayShelterAnimals, hc]
  · simp [displayShelterAnimals, displayedPets, hc, hnil]

/-- Witness for `display_no_available` at a one-pet, fully-adopted roster. -/
theorem display_no_available_witness :
    displayShelterAnimals (AnimalShelter.mk [⟨"Luna", "dog", "Golden Retriever", false⟩] 1) =
      ["\nPets available for adoption:"] := by
  have h := display_no_available
    (AnimalShelter.mk [⟨"Luna", "dog", "Golden Retriever", false⟩] 1) (by decide)
  simpa using h

/-- Claim C2: for every type filter and breed filter, `search` returns
exactly the pets of the shelter's scanned window that are available and
satisfy the provided filters under exact, case-sensitive string equality —
an empty filter is a wildcard, both set means intersection, neither set means
all available pets — in insertion order. -/
theorem search_filter_spec (s : AnimalShelter) (type breed : String) :
    s.search type breed =
      s.scanned.filter (fun p => p.is_available && matchesFilters type breed p) := by
  unfold AnimalShelter.search
  by_cases ht : type = "" <;> by_cases hb : breed = ""
  · subst ht; subst hb
    simp [matchesFilters]
  · subst ht
    have hb' : (breed == "") = false := beq_eq_false_iff_ne.mpr hb
    simp only [ne_eq, not_true_eq_false, false_and, if_false, ite_false, not_false_eq_true,
      true_and, and_true, if_true, ite_true, and_self]
    simp only [hb, if_true, ite_true, not_false_eq_true, and_self]
    apply List.filter_congr
    intro p _
    simp only [matchesFilters, hb', Bool.false_or, beq_self_eq_true, Bool.true_or, Bool.true_and]
    cases hy : (p.breed == breed) <;> cases hz : p.is_available <;> simp
  · subst hb
    have ht' : (type == "") = false := beq_eq_false_iff_ne.mpr ht
    simp only [ne_eq, not_true_eq_false, and_false, if_false, ite_false, not_false_eq_true,
      true_and, and_true, if_true, ite_true, and_self, ht]
    apply List.filter_congr
    intro p _
    simp only [matchesFilters, ht', Bool.false_or, beq_self_eq_true, Bool.true_or, Bool.and_true]
    cases hx : (p.type == type) <;> cases hz : p.is_available <;> simp
  · have ht' : (type == "") = false := beq_eq_false_iff_ne.mpr ht
    have hb' : (breed == "") = false := beq_eq_false_iff_ne.mpr hb
    simp only [ne_eq, ht, hb, not_false_eq_true, and_self, if_true, ite_true]
    apply List.filter_congr
    intro p _
    simp only [matchesFilters, ht', hb', Bool.false_or]
    cases hx : (p.type == type) <;> cases hy : (p.breed == breed) <;>
      cases hz : p.is_available <;> simp

/-- Witness for `search_filter_spec` at the seed shelter. -/
theorem search_filter_spec_witness :
    seedShelter.search "dog" "Husky" =
      seedShelter.scanned.filter (fun p => p.is_available && matchesFilters "dog" "Husky" p) :=
  search_filter_spec seedShelter "dog" "Husky"

/-- The adoption loop test holds exactly for a non-empty requested name, a
case-insensitive name match, and an available pet. -/
theorem adoptCond_iff (n : String) (p : Pet) :
    adoptCond n p = true ↔
      n ≠ "" ∧ lowerString p.name = lowerString n ∧ p.is_available = true := by
  simp [adoptCond, and_assoc]

/-- Adoption rewrites the scanned window pointwise by `adoptMark`. -/
theorem adopt_scanned (s : AnimalShelter) (n : String) :
    ((s.adopt n).snd).scanned = s.scanned.map (adoptMark n) := by
  have hlen : (s.scanned.map (adoptMark n)).length = min s.count s.pets.length := by
    simp [AnimalShelter.scanned]
  show ((s.scanned.map (adoptMark n) ++ s.pets.drop s.count).take s.count)
      = s.scanned.map (adoptMark n)
  rw [List.take_append_eq_append_take, hlen,
    List.take_of_length_le (le_of_eq_of_le hlen (Nat.min_le_left _ _))]
  by_cases hc : s.count ≤ s.pets.length
  · rw [Nat.sub_eq_zero_of_le (by omega), List.take_zero, List.append_nil]
  · rw [List.drop_eq_nil_of_le (by omega), List.take_nil, List.append_nil]

/-- Claim C3: for every non-empty name, `adopt` sets `is_available` to
`false` for every currently-available scanned pet whose name matches
case-insensitively — all of them in one call — leaves every other scanned pet
untouched, and returns `true` exactly when at least one such pet existed. -/
theorem adopt_all_matching (s : AnimalShelter) (n : String) (hn : n ≠ "") :
    ((s.adopt n).fst = true ↔
      ∃ p ∈ s.scanned, lowerString p.name = lowerString n ∧ p.is_available = true) ∧
    List.Forall₂
      (fun p q =>
        (lowerString p.name = lowerString n ∧ p.is_available = true →
          q = { p with is_available := false }) ∧
        (¬(lowerString p.name = lowerString n ∧ p.is_available = true) → q = p))
      s.scanned ((s.adopt n).snd).scanned := by
  constructor
  · show s.scanned.any (adoptCond n) = true ↔ _
    rw [List.any_eq_true]
    constructor
    · rintro ⟨p, hp, hcond⟩
      rw [adoptCond_iff] at hcond
      exact ⟨p, hp, hcond.2⟩
    · rintro ⟨p, hp, h1, h2⟩
      exact ⟨p, hp, (adoptCond_iff n p).mpr ⟨hn, h1, h2⟩⟩
  · rw [adopt_scanned, List.forall₂_map_right_iff, List.forall₂_same]
    intro p hp
    by_cases hc : adoptCond n p = true
    · have hm : lowerString p.name = lowerString n ∧ p.is_available = true :=
        ((adoptCond_iff n p).mp hc).2
      constructor
      · intro _
        simp [adoptMark, hc]
      · intro hcontra
        exact absurd hm hcontra
    · have hc' : adoptCond n p = false := by revert hc; cases adoptCond n p <;> simp
      constructor
      · intro hm
        exact absurd ((adoptCond_iff n p).mpr ⟨hn, hm.1, hm.2⟩) hc
      · intro _
        simp [adoptMark, hc']

/-- Witness for `adopt_all_matching`: `adopt("luna")` succeeds on a shelter
whose only pet is named `"Luna"`, exhibiting the case-insensitive match. -/
theorem adopt_all_matching_witness :
    ((AnimalShelter.mk [lunaPet] 1).adopt "luna").fst = true := by
  have h := adopt_all_matching (AnimalShelter.mk [lunaPet] 1) "luna" (by decide)
  exact h.1.mpr ⟨lunaPet, by decide, by decide, rfl⟩

/-- Claim C4: `adopt(name)` returns `false` iff the name is empty or every
scanned pet whose name matches case-insensitively (vacuously, when none has
that name) is already unavailable; and whenever it returns `false`, the
shelter state is completely unchanged. -/
theorem adopt_false_iff (s : AnimalShelter) (n : String) :
    ((s.adopt n).fst = false ↔
      (n = "" ∨ ∀ p ∈ s.scanned, lowerString p.name = lowerString n → p.is_available = false)) ∧
    ((s.adopt n).fst = false → (s.adopt n).snd = s) := by
  have hany : (s.adopt n).fst = s.scanned.any (adoptCond n) := rfl
  constructor
  · rw [hany, List.any_eq_false]
    constructor
    · intro h
      by_cases hn : n = ""
      · exact Or.inl hn
      · refine Or.inr fun p hp hname => ?_
        by_contra hav
        have hav' : p.is_available = true := by revert hav; cases p.is_available <;> simp
        exact h p hp ((adoptCond_iff n p).mpr ⟨hn, hname, hav'⟩)
    · intro h p hp hc
      have hc' := (adoptCond_iff n p).mp hc
      rcases h with hn | hall
      · exact hc'.1 hn
      · have := hall p hp hc'.2.1
        rw [hc'.2.2] at this
        simp at this
  · intro h
    rw [hany, List.any_eq_false] at h
    have hmap : s.scanned.map (adoptMark n) = s.scanned := by
      have hid : ∀ p ∈ s.scanned, adoptMark n p = id p := by
        intro p hp
        have hc : adoptCond n p = false := by
          have := h p hp
          revert this; cases adoptCond n p <;> simp
        simp [adoptMark, hc]
      rw [List.map_congr_left hid, List.map_id]
    show (⟨s.scanned.map (adoptMark n) ++ s.pets.drop s.count, s.count⟩ : AnimalShelter) = s
    rw [hmap]
    show (⟨s.pets.take s.count ++ s.pets.drop s.count, s.count⟩ : AnimalShelter) = s
    rw [List.take_append_drop]

/-- Witness for `adopt_false_iff`: adopting the absent name `"Rex"` leaves a
one-pet shelter unchanged. -/
theorem adopt_false_iff_witness :
    ((AnimalShelter.mk [lunaPet] 1).adopt "Rex").snd = AnimalShelter.mk [lunaPet] 1 := by
  have h := adopt_false_iff (AnimalShelter.mk [lunaPet] 1) "Rex"
  exact h.2 (h.1.mpr (Or.inr (by decide)))

/-- Claim C6: whenever `adopt(name)` returns `true`, calling `adopt(name)`
again immediately afterwards returns `false` — the matched pets are no longer
available. -/
theorem adopt_then_adopt_fails (s : AnimalShelter) (n : String)
    (h : (s.adopt n).fst = true) :
    (((s.adopt n).snd).adopt n).fst = false := by
  show ((s.adopt n).snd).scanned.any (adoptCond n) = false
  rw [adopt_scanned, List.any_map, List.any_eq_false]
  intro p _
  simp only [Function.comp]
  by_cases hc : adoptCond n p = true
  · have hflip : adoptMark n p = { p with is_available := false } := by simp [adoptMark, hc]
    rw [hflip]
    intro hcon
    rw [adoptCond_iff] at hcon
    simp at hcon
  · have hc' : adoptCond n p = false := by revert hc; cases adoptCond n p <;> simp
    simp [adoptMark, hc']

/-- Witness for `adopt_then_adopt_fails` at the seed shelter and
`"Luna"`. -/
theorem adopt_then_adopt_fails_witness :
    (((seedShelter.adopt "Luna").snd).adopt "Luna").fst = false :=
  adopt_then_adopt_fails seedShelter "Luna" (by decide)

/-- Claim C7: the mutating shelter operations preserve the invariants — the
pet sequence never shrinks (`add` appends one pet, `adopt` keeps the length
and the `count`), and availability is one-way: `adopt` keeps every pet's
name, type and breed and never sets `is_available` from `false` back to
`true` (`search` and the listing are pure functions of the state in this
embedding and transform no state at all). -/
theorem shelter_ops_preserve (s : AnimalShelter) (p : Pet) (n : String) :
    (s.add p).pets = s.pets ++ [p] ∧
    (s.add p).count = s.count ∧
    ((s.adopt n).snd).count = s.count ∧
    ((s.adopt n).snd).pets.length = s.pets.length ∧
    List.Forall₂
      (fun a b => a.name = b.name ∧ a.type = b.type ∧ a.breed = b.breed ∧
        (a.is_available = false → b.is_available = false))
      s.pets ((s.adopt n).snd).pets := by
  refine ⟨rfl, rfl, rfl, ?_, ?_⟩
  · show (s.scanned.map (adoptMark n) ++ s.pets.drop s.count).length = s.pets.length
    simp [AnimalShelter.scanned]
    omega
  · show List.Forall₂ _ s.pets (s.scanned.map (adoptMark n) ++ s.pets.drop s.count)
    have part1 : List.Forall₂
        (fun a b => a.name = b.name ∧ a.type = b.type ∧ a.breed = b.breed ∧
          (a.is_available = false → b.is_available = false))
        (s.pets.take s.count) (s.scanned.map (adoptMark n)) := by
      rw [List.forall₂_map_right_iff]
      rw [show s.pets.take s.count = s.scanned from rfl, List.forall₂_same]
      intro a _
      by_cases hc : adoptCond n a = true
      · have hav : a.is_available = true := (Bool.and_elim_right hc)
        simp [adoptMark, hc, hav]
      · have hc' : adoptCond n a = false := by revert hc; cases adoptCond n a <;> simp
        simp [adoptMark, hc']
    have part2 : List.Forall₂
        (fun a b => a.name = b.name ∧ a.type = b.type ∧ a.breed = b.breed ∧
          (a.is_available = false → b.is_available = false))
        (s.pets.drop s.count) (s.pets.drop s.count) := by
      rw [List.forall₂_same]
      intro a _
      exact ⟨rfl, rfl, rfl, fun h => h⟩
    have key : List.Forall₂
        (fun a b => a.name = b.name ∧ a.type = b.type ∧ a.breed = b.breed ∧
          (a.is_available = false → b.is_available = false))
        (s.pets.take s.count ++ s.pets.drop s.count)
        (s.scanned.map (adoptMark n) ++ s.pets.drop s.count) :=
      List.rel_append part1 part2
    rwa [List.take_append_drop] at key

/-- Witness for `shelter_ops_preserve` at the seed shelter. -/
theorem shelter_ops_preserve_witness :
    ((seedShelter.adopt "Luna").snd).pets.length = seedShelter.pets.length :=
  (shelter_ops_preserve seedShelter goldiePet "Luna").2.2.2.1

/-- Claim C10: the `count` field is fixed at construction — neither `add`
nor `adopt` changes it — and `search`, `adopt` and the option-1 listing scan
only the first `count` array entries, so a pet appended via `add` after
construction is never returned by `search`, never displayed, and never
touched or counted by `adopt`. -/
theorem count_window_invariant (s : AnimalShelter) (p : Pet) (n type breed : String)
    (h : s.count ≤ s.pets.length) :
    (s.add p).count = s.count ∧
    ((s.add p).adopt n).snd.count = s.count ∧
    (s.add p).scanned = s.scanned ∧
    (s.add p).search type breed = s.search type breed ∧
    displayShelterAnimals (s.add p) = displayShelterAnimals s ∧
    ((s.add p).adopt n).fst = (s.adopt n).fst ∧
    ((s.add p).adopt n).snd.pets = (s.adopt n).snd.pets ++ [p] := by
  have hsc : (s.add p).scanned = s.scanned := by
    show (s.pets ++ [p]).take s.count = s.pets.take s.count
    exact List.take_append_of_le_length h
  have hdr : (s.add p).pets.drop (s.add p).count = s.pets.drop s.count ++ [p] := by
    show (s.pets ++ [p]).drop s.count = s.pets.drop s.count ++ [p]
    exact List.drop_append_of_le_length h
  refine ⟨rfl, rfl, hsc, ?_, ?_, ?_, ?_⟩
  · unfold AnimalShelter.search
    rw [hsc]
  · unfold displayShelterAnimals displayedPets
    rw [hsc, show (s.add p).count = s.count from rfl]
  · show (s.add p).scanned.any (adoptCond n) = s.scanned.any (adoptCond n)
    rw [hsc]
  · show (s.add p).scanned.map (adoptMark n) ++ (s.add p).pets.drop (s.add p).count
        = (s.scanned.map (adoptMark n) ++ s.pets.drop s.count) ++ [p]
    rw [hsc, hdr, List.append_assoc]

/-- Witness for `count_window_invariant`: the available cat Goldie, added
after construction, is invisible to `search("cat", "")`. -/
theorem count_window_invariant_witness :
    ((AnimalShelter.mk [lunaPet] 1).add goldiePet).search "cat" "" = [] := by
  have h := count_window_invariant (AnimalShelter.mk [lunaPet] 1) goldiePet "Luna" "cat" ""
    (by decide)
  rw [h.2.2.2.1]
  decide

/-- Claim C9, evaluated at the failing input: an absent (`undefined`)
callback result is handled gracefully at the main menu (re-prompt) and at the
name prompt (silent stop), but at the type prompt and the breed prompt the
unguarded property access on `undefined` raises an error that propagates — a
crash, contradicting the claim. -/
theorem input_eof_behavior :
    askTypeStep none = Except.error UIError.undefinedResultAccess ∧
    askBreedStep seedShelter "dog" none = Except.error UIError.undefinedResultAccess ∧
    askSelection none = MenuAction.redisplayMenu ∧
    askNameStep seedShelter none = Except.ok none :=
  ⟨rfl, rfl, rfl, rfl⟩
